import Mathlib

/-
Shallow embedding of src/src/bin/lora_txrx.rs (LoRa TX/RX demo application).

Each handler of the event-dispatch loop is modelled as a pure function from a
driver environment (the result each driver command would return, as an
Except value) to a trace of issued commands and side effects plus an outcome.
A Rust expect call on an Err result panics and aborts the whole program; this
is modelled by the Outcome.fatal result, produced at the point where the
failing command was issued.  Machine integers (u8 packet id, u8 payload fill)
are modelled as Nat with explicit mod 256 where the source wraps.
-/

namespace LoraTxrx

/-- Configured payload size, const PLD_SIZE : u8 = 10 in the source. -/
def PLD_SIZE : Nat := 10

/-- Modelled from the spec: the board module (lr1120_apps::board) of this
repository is not under src/.  Press Event is one of Short or Long,
spec section 3. -/
inductive ButtonPressKind
  | Short
  | Long
  deriving DecidableEq

/-- Modelled from the spec: the board module (lr1120_apps::board) of this
repository is not under src/.  Role is one of Transmit (Tx) or Receive (Rx),
spec section 3. -/
inductive BoardRole
  | Tx
  | Rx
  deriving DecidableEq

/-- Modelled from the spec: BoardRole::toggle flips Transmit and Receive with
no side effect on hardware, spec section 4.1. -/
def BoardRole.toggle : BoardRole → BoardRole
  | .Tx => .Rx
  | .Rx => .Tx

/-- Modelled from the spec: BoardRole::is_rx reports the current value,
spec section 4.1. -/
def BoardRole.is_rx : BoardRole → Bool
  | .Tx => false
  | .Rx => true

/-- Modelled from the spec: indicator modes accepted by the board LED setter,
spec section 6. -/
inductive LedMode
  | Off
  | On
  | BlinkSlow
  | Flash
  deriving DecidableEq

/-- The two indicator channels: red is the TX indicator, green the RX one. -/
inductive LedId
  | red
  | green
  deriving DecidableEq

/-- Receive statistics returned by get_rx_stats. -/
structure RxStats where
  pkt_rx : Nat
  crc_error : Nat
  header_error : Nat
  false_sync : Nat
  deriving DecidableEq

/-- Interrupt snapshot returned by get_status. -/
structure Intr where
  rx_done : Bool
  rx_error : Bool
  tx_done : Bool
  value : Nat
  deriving DecidableEq

/-- Buffer status returned by get_rx_buffer_status: chip-reported payload
length and offset within the internal buffer. -/
structure BufferStatus where
  pld_len : Nat
  offset : Nat
  deriving DecidableEq

/-- Per-packet status returned by get_lora_packet_status. -/
structure PktStatus where
  rssi_pkt : Nat
  snr_pkt : Nat
  deriving DecidableEq

/-- Driver commands issued by the handlers, with the arguments that the
claims are about. -/
inductive Cmd
  | getRxStats
  | clearRxStats
  | wrTxBuffer : Nat → Cmd
  | setTx : Nat → Cmd
  | setChipModeFs
  | setRx : Nat → Bool → Cmd
  | getStatus
  | getRxBufferStatus
  | rdRxBuffer : Nat → Nat → Cmd
  | getLoraPacketStatus
  | clearRxBuffer
  | clearIrqs
  deriving DecidableEq

/-- Trace events: driver commands, log lines and indicator updates. -/
inductive Event
  | cmd : Cmd → Event
  | info : Event
  | warnLog : Event
  | logStats : Nat → Nat → Nat → Nat → Event
  | logPayload : Nat → Event
  | led : LedId → LedMode → Event
  deriving DecidableEq

/-- Outcome of one handler invocation: ok means the handler ran to its end;
fatal means an expect call hit an Err and the whole program panicked. -/
inductive Outcome
  | ok
  | fatal
  deriving DecidableEq

/-- Trace and outcome of a handler invocation. -/
structure HandlerResult where
  trace : List Event
  outcome : Outcome
  deriving DecidableEq

/-- Driver environment for show_and_clear_rx_stats. -/
structure StatsEnv where
  getRxStats : Except Nat RxStats
  clearRxStats : Except Nat Unit

/-- Driver environment for send_pkt. -/
structure SendEnv where
  wrTxBuffer : Except Nat Unit
  setTx : Except Nat Unit

/-- Driver environment for switch_mode. -/
structure SwitchEnv where
  setChipModeFs : Except Nat Unit
  setRx : Except Nat Unit

/-- Driver environment for show_rx_pkt. -/
structure RxEnv where
  getStatus : Except Nat Intr
  getRxBufferStatus : Except Nat BufferStatus
  rdRxBuffer : Except Nat Unit
  getLoraPacketStatus : Except Nat PktStatus
  clearRxBuffer : Except Nat Unit
  clearIrqs : Except Nat Unit

/-- Result of send_pkt: trace, outcome, new packet id and new buffer
contents. -/
structure SendResult where
  trace : List Event
  outcome : Outcome
  pktId : Nat
  buffer : List Nat
  deriving DecidableEq

/-- The payload fill loop of send_pkt, embedding
for (i, d) in buffer_mut().iter_mut().take(len).enumerate()
with d set to pkt_id.wrapping_add(i as u8): position i of the buffer, for
i below both len and the buffer capacity, becomes (id + i mod 256) mod 256.
The first argument of the recursion is the running index i. -/
def fillFrom (id : Nat) : Nat → Nat → List Nat → List Nat
  | _, _, [] => []
  | _, 0, buffer => buffer
  | i, n + 1, _ :: rest => ((id + i % 256) % 256) :: fillFrom id (i + 1) n rest

/-- Payload fill starting at index 0, as the source loop does. -/
def fill_payload (id n : Nat) (buffer : List Nat) : List Nat :=
  fillFrom id 0 n buffer

/-- Embedding of show_and_clear_rx_stats, src lines 102 to 111: query the
receive statistics (expect), log the four counters, clear the statistics
(expect). -/
def show_and_clear_rx_stats (env : StatsEnv) : HandlerResult :=
  match env.getRxStats with
  | .error _ => ⟨[.cmd .getRxStats], .fatal⟩
  | .ok stats =>
      match env.clearRxStats with
      | .error _ => ⟨[.cmd .getRxStats,
          .logStats stats.pkt_rx stats.crc_error stats.header_error stats.false_sync,
          .cmd .clearRxStats], .fatal⟩
      | .ok _ => ⟨[.cmd .getRxStats,
          .logStats stats.pkt_rx stats.crc_error stats.header_error stats.false_sync,
          .cmd .clearRxStats], .ok⟩

/-- Embedding of send_pkt, src lines 113 to 123: log, fill the first
PLD_SIZE buffer bytes with id, id+1, ... wrapping at 256, write the buffer
to the TX FIFO (expect), start transmission with zero extra timeout (expect),
then increment the packet id.  The u8 increment of the source is modelled
with wraparound (release-profile semantics, overflow checks off). -/
def send_pkt (env : SendEnv) (pktId : Nat) (buffer : List Nat) : SendResult :=
  let buf2 := fill_payload pktId PLD_SIZE buffer
  match env.wrTxBuffer with
  | .error _ => ⟨[.info, .cmd (.wrTxBuffer PLD_SIZE)], .fatal, pktId, buf2⟩
  | .ok _ =>
      match env.setTx with
      | .error _ => ⟨[.info, .cmd (.wrTxBuffer PLD_SIZE), .cmd (.setTx 0)],
          .fatal, pktId, buf2⟩
      | .ok _ => ⟨[.info, .cmd (.wrTxBuffer PLD_SIZE), .cmd (.setTx 0)],
          .ok, (pktId + 1) % 256, buf2⟩

/-- Embedding of switch_mode, src lines 125 to 138: force frequency
synthesis mode (expect); when switching to receive, start continuous receive
with the 0xFFFFFFFF no-timeout sentinel (expect), turn the red LED off and
blink the green one; otherwise blink the red LED and turn the green one
off. -/
def switch_mode (env : SwitchEnv) (is_rx : Bool) : HandlerResult :=
  match env.setChipModeFs with
  | .error _ => ⟨[.cmd .setChipModeFs], .fatal⟩
  | .ok _ =>
      if is_rx then
        match env.setRx with
        | .error _ => ⟨[.cmd .setChipModeFs, .cmd (.setRx 4294967295 true)], .fatal⟩
        | .ok _ => ⟨[.cmd .setChipModeFs, .cmd (.setRx 4294967295 true),
            .led .red .Off, .led .green .BlinkSlow, .info], .ok⟩
      else
        ⟨[.cmd .setChipModeFs, .led .red .BlinkSlow, .led .green .Off, .info], .ok⟩

/-- Embedding of show_rx_pkt, src lines 140 to 177: query the interrupt
snapshot (expect); on rx_done query the buffer status (expect), then either
warn (rx_error) or read pld_len + 2 bytes (expect), query the packet status
(expect) and log the payload slice, then clear the receive buffer (expect);
on tx_done only log; always clear all interrupts (expect) at the end. -/
def show_rx_pkt (env : RxEnv) : HandlerResult :=
  match env.getStatus with
  | .error _ => ⟨[.cmd .getStatus], .fatal⟩
  | .ok intr =>
      if intr.rx_done then
        match env.getRxBufferStatus with
        | .error _ => ⟨[.cmd .getStatus, .cmd .getRxBufferStatus], .fatal⟩
        | .ok bs =>
            if intr.rx_error then
              match env.clearRxBuffer with
              | .error _ => ⟨[.cmd .getStatus, .cmd .getRxBufferStatus, .warnLog,
                  .cmd .clearRxBuffer], .fatal⟩
              | .ok _ =>
                  match env.clearIrqs with
                  | .error _ => ⟨[.cmd .getStatus, .cmd .getRxBufferStatus, .warnLog,
                      .cmd .clearRxBuffer, .cmd .clearIrqs], .fatal⟩
                  | .ok _ => ⟨[.cmd .getStatus, .cmd .getRxBufferStatus, .warnLog,
                      .cmd .clearRxBuffer, .cmd .clearIrqs], .ok⟩
            else
              match env.rdRxBuffer with
              | .error _ => ⟨[.cmd .getStatus, .cmd .getRxBufferStatus,
                  .cmd (.rdRxBuffer bs.offset (bs.pld_len + 2))], .fatal⟩
              | .ok _ =>
                  match env.getLoraPacketStatus with
                  | .error _ => ⟨[.cmd .getStatus, .cmd .getRxBufferStatus,
                      .cmd (.rdRxBuffer bs.offset (bs.pld_len + 2)),
                      .cmd .getLoraPacketStatus], .fatal⟩
                  | .ok _ =>
                      match env.clearRxBuffer with
                      | .error _ => ⟨[.cmd .getStatus, .cmd .getRxBufferStatus,
                          .cmd (.rdRxBuffer bs.offset (bs.pld_len + 2)),
                          .cmd .getLoraPacketStatus,
                          .logPayload (bs.pld_len + 2), .cmd .clearRxBuffer], .fatal⟩
                      | .ok _ =>
                          match env.clearIrqs with
                          | .error _ => ⟨[.cmd .getStatus, .cmd .getRxBufferStatus,
                              .cmd (.rdRxBuffer bs.offset (bs.pld_len + 2)),
                              .cmd .getLoraPacketStatus,
                              .logPayload (bs.pld_len + 2), .cmd .clearRxBuffer,
                              .cmd .clearIrqs], .fatal⟩
                          | .ok _ => ⟨[.cmd .getStatus, .cmd .getRxBufferStatus,
                              .cmd (.rdRxBuffer bs.offset (bs.pld_len + 2)),
                              .cmd .getLoraPacketStatus,
                              .logPayload (bs.pld_len + 2), .cmd .clearRxBuffer,
                              .cmd .clearIrqs], .ok⟩
      else if intr.tx_done then
        match env.clearIrqs with
        | .error _ => ⟨[.cmd .getStatus, .info, .cmd .clearIrqs], .fatal⟩
        | .ok _ => ⟨[.cmd .getStatus, .info, .cmd .clearIrqs], .ok⟩
      else
        match env.clearIrqs with
        | .error _ => ⟨[.cmd .getStatus, .cmd .clearIrqs], .fatal⟩
        | .ok _ => ⟨[.cmd .getStatus, .cmd .clearIrqs], .ok⟩

/-- Driver environments of all handlers reachable from a button press. -/
structure PressEnv where
  stats : StatsEnv
  send : SendEnv
  sw : SwitchEnv

/-- Result of one press-event dispatch iteration. -/
structure IterResult where
  trace : List Event
  outcome : Outcome
  role : BoardRole
  pktId : Nat
  buffer : List Nat

/-- Embedding of the press-event routing of main, src lines 76 to 91:
Short press in Rx shows and clears the statistics; Short press in Tx sends a
packet and then flashes the red LED; Long press toggles the role and applies
the new role. -/
def handle_press (press : ButtonPressKind) (role : BoardRole) (env : PressEnv)
    (pktId : Nat) (buffer : List Nat) : IterResult :=
  match press, role with
  | .Short, .Rx =>
      let r := show_and_clear_rx_stats env.stats
      ⟨r.trace, r.outcome, .Rx, pktId, buffer⟩
  | .Short, .Tx =>
      let r := send_pkt env.send pktId buffer
      match r.outcome with
      | .ok => ⟨r.trace ++ [.led .red .Flash], .ok, .Tx, r.pktId, r.buffer⟩
      | .fatal => ⟨r.trace, .fatal, .Tx, r.pktId, r.buffer⟩
  | .Long, r0 =>
      let role2 := r0.toggle
      let r := switch_mode env.sw role2.is_rx
      ⟨r.trace, r.outcome, role2, pktId, buffer⟩

/-- True exactly on the buffer-read command. -/
def isRdRx : Event → Bool
  | .cmd (.rdRxBuffer _ _) => true
  | _ => false

/-- True exactly on the clear-all-interrupts command. -/
def isClearIrqs : Event → Bool
  | .cmd .clearIrqs => true
  | _ => false

/-- True on transmit commands: buffer write and transmit start. -/
def isTxCmd : Event → Bool
  | .cmd (.wrTxBuffer _) => true
  | .cmd (.setTx _) => true
  | _ => false

/-- True on role-change commands: frequency-synthesis mode and receive
start. -/
def isRoleChangeCmd : Event → Bool
  | .cmd .setChipModeFs => true
  | .cmd (.setRx _ _) => true
  | _ => false

/-- Number of Packet Buffer bytes moved or exposed by an event: the scope of
a buffer write, the size of a buffer read, the length of the logged payload
slice. -/
def bytesMoved : Event → Option Nat
  | .cmd (.wrTxBuffer n) => some n
  | .cmd (.rdRxBuffer _ n) => some n
  | .logPayload n => some n
  | _ => none

/-- Number of events of a trace satisfying a predicate. -/
def countIf (p : Event → Bool) : List Event → Nat
  | [] => 0
  | e :: t => (if p e then 1 else 0) + countIf p t

/-- Last event of a trace, if any. -/
def lastEv : List Event → Option Event
  | [] => none
  | [e] => some e
  | _ :: e :: t => lastEv (e :: t)

theorem fillFrom_length (id : Nat) :
    ∀ (buffer : List Nat) (i n : Nat), (fillFrom id i n buffer).length = buffer.length := by
  intro buffer
  induction buffer with
  | nil => intro i n; cases n <;> rfl
  | cons d rest ih =>
      intro i n
      cases n with
      | zero => rfl
      | succ m => simpa [fillFrom] using ih (i + 1) m

theorem fillFrom_getD_lt (id : Nat) :
    ∀ (buffer : List Nat) (i n j : Nat), j < n → j < buffer.length →
      (fillFrom id i n buffer).getD j 0 = (id + (i + j) % 256) % 256 := by
  intro buffer
  induction buffer with
  | nil => intro i n j _ hb; simp at hb
  | cons d rest ih =>
      intro i n j hj hb
      cases n with
      | zero => omega
      | succ m =>
          cases j with
          | zero => simp [fillFrom]
          | succ jj =>
              have hb2 : jj < rest.length := by simpa using hb
              have h := ih (i + 1) m jj (by omega) hb2
              have h2 : i + 1 + jj = i + (jj + 1) := by omega
              simpa [fillFrom, h2] using h

theorem fillFrom_getD_ge (id : Nat) :
    ∀ (buffer : List Nat) (i n j : Nat), n ≤ j →
      (fillFrom id i n buffer).getD j 0 = buffer.getD j 0 := by
  intro buffer
  induction buffer with
  | nil => intro i n j _; cases n <;> rfl
  | cons d rest ih =>
      intro i n j h
      cases n with
      | zero => rfl
      | succ m =>
          cases j with
          | zero => omega
          | succ jj => simpa [fillFrom] using ih (i + 1) m jj (by omega)

/-- C1 counterexample: with a driver environment in which the statistics
query fails, the show-and-clear handler does not return early in a survivable
way as the claim states: the expect call panics and the invocation outcome is
fatal, so the Event Dispatch Loop does not proceed to the next event. -/
theorem C1_counterexample :
    (show_and_clear_rx_stats ⟨.error 0, .ok ()⟩).outcome ≠ Outcome.ok := by
  decide

/-- C1 amended: whenever a driver command fails inside any of the four
handlers, the handler invocation ends fatally (the expect call panics and the
whole program, including the Event Dispatch Loop, is torn down).  Each
conjunct exhibits one failing command of one handler and shows the fatal
outcome. -/
theorem C1_thm :
    (∀ (e : Nat) (crs : Except Nat Unit),
      (show_and_clear_rx_stats ⟨.error e, crs⟩).outcome = .fatal) ∧
    (∀ (stats : RxStats) (e : Nat),
      (show_and_clear_rx_stats ⟨.ok stats, .error e⟩).outcome = .fatal) ∧
    (∀ (e : Nat) (st : Except Nat Unit) (k : Nat) (buf : List Nat),
      (send_pkt ⟨.error e, st⟩ k buf).outcome = .fatal) ∧
    (∀ (e k : Nat) (buf : List Nat),
      (send_pkt ⟨.ok (), .error e⟩ k buf).outcome = .fatal) ∧
    (∀ (e : Nat) (sr : Except Nat Unit) (b : Bool),
      (switch_mode ⟨.error e, sr⟩ b).outcome = .fatal) ∧
    (∀ (e : Nat),
      (switch_mode ⟨.ok (), .error e⟩ true).outcome = .fatal) ∧
    (∀ (e : Nat) (gbs : Except Nat BufferStatus) (rd : Except Nat Unit)
        (gps : Except Nat PktStatus) (crb ci : Except Nat Unit),
      (show_rx_pkt ⟨.error e, gbs, rd, gps, crb, ci⟩).outcome = .fatal) ∧
    (∀ (intr : Intr) (gbs : Except Nat BufferStatus) (rd : Except Nat Unit)
        (gps : Except Nat PktStatus) (crb : Except Nat Unit) (e : Nat),
      (show_rx_pkt ⟨.ok intr, gbs, rd, gps, crb, .error e⟩).outcome = .fatal) := by
  refine ⟨fun e crs => rfl, fun stats e => rfl, fun e st k buf => rfl,
    fun e k buf => rfl, fun e sr b => rfl, fun e => rfl,
    fun e gbs rd gps crb ci => rfl, ?_⟩
  intro intr gbs rd gps crb e
  obtain ⟨rxD, rxE, txD, v⟩ := intr
  cases rxD <;> cases rxE <;> cases txD <;>
    rcases gbs with e2 | bs <;> rcases rd with e3 | u3 <;>
    rcases gps with e4 | p4 <;> rcases crb with e5 | u5 <;> rfl

/-- C2 counterexample: with the buffer-write command failing and Packet Id 5,
the Send Handler leaves the Packet Id at 5, not 6: a failed send does not
advance the id, contrary to the claim. -/
theorem C2_counterexample :
    (send_pkt ⟨.error 0, .ok ()⟩ 5 (List.replicate 12 0)).pktId = 5 ∧
    (5 : Nat) ≠ (5 + 1) % 256 := by
  decide

/-- C2 amended: the Packet Id increment is reached only when both the
buffer-write and the transmit-start command succeed; when either command
fails, the handler panics before the increment and the Packet Id is
unchanged. -/
theorem C2_thm (k : Nat) (buf : List Nat) :
    (send_pkt ⟨.ok (), .ok ()⟩ k buf).pktId = (k + 1) % 256 ∧
    (∀ (e : Nat) (st : Except Nat Unit), (send_pkt ⟨.error e, st⟩ k buf).pktId = k) ∧
    (∀ (e : Nat), (send_pkt ⟨.ok (), .error e⟩ k buf).pktId = k) := by
  exact ⟨rfl, fun e st => rfl, fun e => rfl⟩

set_option maxRecDepth 4000 in
/-- C5: the Packet Id increment of the Send Handler wraps modulo 256:
iterating 256 successful sends from id 0 returns to 0, and the increment at
255 yields 0. -/
theorem C5_thm :
    Nat.iterate (fun k => (send_pkt ⟨Except.ok (), Except.ok ()⟩ k []).pktId) 256 0 = 0 ∧
    (send_pkt ⟨Except.ok (), Except.ok ()⟩ 255 []).pktId = 0 := by
  constructor
  · have hf : (fun k => (send_pkt ⟨Except.ok (), Except.ok ()⟩ k []).pktId)
        = fun k => (k + 1) % 256 := funext fun k => rfl
    rw [hf]
    decide
  · rfl

/-- C4: for Packet Id k and the configured payload length PLD_SIZE, a Send
Handler invocation whose commands succeed fills the first PLD_SIZE buffer
positions with k, k+1, ... taken mod 256 in order, then issues the
buffer-write command scoped to PLD_SIZE bytes followed by the transmit-start
command with zero extra timeout. -/
theorem C4_thm (k : Nat) (buf : List Nat) (hlen : PLD_SIZE ≤ buf.length)
    (i : Nat) (hi : i < PLD_SIZE) :
    (send_pkt ⟨.ok (), .ok ()⟩ k buf).trace
      = [.info, .cmd (.wrTxBuffer PLD_SIZE), .cmd (.setTx 0)] ∧
    (send_pkt ⟨.ok (), .ok ()⟩ k buf).buffer.getD i 0 = (k + i) % 256 := by
  constructor
  · rfl
  · have hb : (send_pkt ⟨.ok (), .ok ()⟩ k buf).buffer = fillFrom k 0 PLD_SIZE buf := rfl
    rw [hb, fillFrom_getD_lt k buf 0 PLD_SIZE i hi (lt_of_lt_of_le hi hlen)]
    omega

/-- C4 witness: Scenario B with Packet Id 5 and a 12-byte buffer; position 3
of the filled buffer holds byte 8 and the trace is the write followed by the
transmit start. -/
theorem C4_witness :
    (send_pkt ⟨.ok (), .ok ()⟩ 5 (List.replicate 12 0)).trace
      = [.info, .cmd (.wrTxBuffer PLD_SIZE), .cmd (.setTx 0)] ∧
    (send_pkt ⟨.ok (), .ok ()⟩ 5 (List.replicate 12 0)).buffer.getD 3 0 = 8 := by
  have h := C4_thm 5 (List.replicate 12 0) (by decide) 3 (by decide)
  exact ⟨h.1, h.2.trans (by decide)⟩

/-- C10: a Send Handler invocation modifies only the first
min(PLD_SIZE, capacity) bytes of the Packet Buffer: the buffer length is
preserved (the fill never goes out of bounds) and every position at or
beyond PLD_SIZE keeps its previous value, for every driver environment,
Packet Id and initial contents. -/
theorem C10_thm (env : SendEnv) (k : Nat) (buf : List Nat) :
    (send_pkt env k buf).buffer.length = buf.length ∧
    ∀ j, PLD_SIZE ≤ j → (send_pkt env k buf).buffer.getD j 0 = buf.getD j 0 := by
  obtain ⟨we, st⟩ := env
  rcases we with e1 | u1 <;> rcases st with e2 | u2 <;>
    exact ⟨fillFrom_length k buf 0 PLD_SIZE,
      fun j hj => fillFrom_getD_ge k buf 0 PLD_SIZE j hj⟩

/-- C10 witness: with Packet Id 7 and a buffer of 12 bytes equal to 3, the
send leaves the length at 12 and position 11 still holds 3. -/
theorem C10_witness :
    (send_pkt ⟨.ok (), .ok ()⟩ 7 (List.replicate 12 3)).buffer.length = 12 ∧
    (send_pkt ⟨.ok (), .ok ()⟩ 7 (List.replicate 12 3)).buffer.getD 11 0 = 3 := by
  constructor
  · exact ((C10_thm ⟨.ok (), .ok ()⟩ 7 (List.replicate 12 3)).1).trans (by decide)
  · exact ((C10_thm ⟨.ok (), .ok ()⟩ 7 (List.replicate 12 3)).2 11 (by decide)).trans
      (by decide)

/-- C3 counterexample: with a status snapshot reporting receive-done and no
error, and a chip-reported payload length of 20, the interrupt handler issues
a buffer-read of 22 bytes, which exceeds the configured payload size plus 2
(that is, 12): the claim fails for this chip-reported payload length. -/
theorem C3_counterexample :
    Event.cmd (Cmd.rdRxBuffer 0 22) ∈
      (show_rx_pkt ⟨.ok ⟨true, false, false, 0⟩, .ok ⟨20, 0⟩, .ok (), .ok ⟨0, 0⟩,
        .ok (), .ok ()⟩).trace ∧
    ¬(22 ≤ PLD_SIZE + 2) := by
  decide

/-- C3 amended: in every send, every byte-moving event is bounded by the
configured payload size plus 2 (the write command is scoped to exactly
PLD_SIZE bytes); in receive-done handling the buffer-read and the logged
payload slice are sized chip-reported payload length plus 2, so they are
bounded by PLD_SIZE + 2 whenever the chip-reported payload length is at most
PLD_SIZE, and only then. -/
theorem C3_thm :
    (∀ (we st : Except Nat Unit) (k : Nat) (buf : List Nat),
      ∀ e ∈ (send_pkt ⟨we, st⟩ k buf).trace,
        ∀ n, bytesMoved e = some n → n ≤ PLD_SIZE + 2) ∧
    (∀ (rxE txD : Bool) (v : Nat) (bs : BufferStatus) (rd : Except Nat Unit)
        (gps : Except Nat PktStatus) (crb ci : Except Nat Unit),
      bs.pld_len ≤ PLD_SIZE →
      ∀ e ∈ (show_rx_pkt ⟨.ok ⟨true, rxE, txD, v⟩, .ok bs, rd, gps, crb, ci⟩).trace,
        ∀ n, bytesMoved e = some n → n ≤ PLD_SIZE + 2) := by
  constructor
  · intro we st k buf
    rcases we with e1 | u1 <;> rcases st with e2 | u2 <;>
      simp [send_pkt, bytesMoved, List.forall_mem_cons]
  · intro rxE txD v bs rd gps crb ci hpl
    cases rxE <;>
      rcases rd with e3 | u3 <;> rcases gps with e4 | p4 <;>
      rcases crb with e5 | u5 <;> rcases ci with e6 | u6 <;>
      simp [show_rx_pkt, bytesMoved, List.forall_mem_cons] <;> omega

/-- C3 witness: in a receive-done handling with chip-reported payload length
8 (at most PLD_SIZE), the 10-byte read is within the configured payload size
plus 2. -/
theorem C3_witness : (10 : Nat) ≤ PLD_SIZE + 2 := by
  exact C3_thm.2 false false 0 ⟨8, 0⟩ (.ok ()) (.ok ⟨0, 0⟩) (.ok ()) (.ok ())
    (by decide) (Event.cmd (Cmd.rdRxBuffer 0 10)) (by decide) 10 rfl

/-- C6: for every status snapshot with receive-done set, if the
receive-error flag is also set then no buffer-read command is issued, and if
the error flag is clear then exactly one buffer-read command is issued,
sized chip-reported payload length plus 2 at the reported offset. -/
theorem C6_thm (rxE txD : Bool) (v : Nat) (bs : BufferStatus)
    (rd : Except Nat Unit) (gps : Except Nat PktStatus) (crb ci : Except Nat Unit) :
    (rxE = true →
      (show_rx_pkt ⟨.ok ⟨true, rxE, txD, v⟩, .ok bs, rd, gps, crb, ci⟩).trace.filter isRdRx
        = []) ∧
    (rxE = false →
      (show_rx_pkt ⟨.ok ⟨true, rxE, txD, v⟩, .ok bs, rd, gps, crb, ci⟩).trace.filter isRdRx
        = [Event.cmd (Cmd.rdRxBuffer bs.offset (bs.pld_len + 2))]) := by
  cases rxE
  · refine ⟨fun h => (nomatch h), fun _ => ?_⟩
    rcases rd with e3 | u3 <;> rcases gps with e4 | p4 <;>
      rcases crb with e5 | u5 <;> rcases ci with e6 | u6 <;> rfl
  · refine ⟨fun _ => ?_, fun h => (nomatch h)⟩
    rcases crb with e5 | u5 <;> rcases ci with e6 | u6 <;> rfl

/-- C6 witness: scenario with receive-done set, error clear and payload
length 8: the trace holds exactly one buffer-read, of 10 bytes at offset
0. -/
theorem C6_witness :
    (show_rx_pkt ⟨.ok ⟨true, false, false, 0⟩, .ok ⟨8, 0⟩, .ok (), .ok ⟨0, 0⟩,
      .ok (), .ok ()⟩).trace.filter isRdRx
      = [Event.cmd (Cmd.rdRxBuffer 0 10)] := by
  exact ((C6_thm false false 0 ⟨8, 0⟩ (.ok ()) (.ok ⟨0, 0⟩) (.ok ()) (.ok ())).2 rfl).trans
    (by decide)

/-- C7: every invocation of the interrupt handler that runs to its end
issues the clear-all-interrupts command exactly once and as its last event,
whatever branch was taken; and when neither receive-done nor transmit-done
is set, the trace is exactly the status query followed by
clear-all-interrupts, so no buffer operation is issued. -/
theorem C7_thm :
    (∀ (gs : Except Nat Intr) (gbs : Except Nat BufferStatus) (rd : Except Nat Unit)
        (gps : Except Nat PktStatus) (crb ci : Except Nat Unit),
      (show_rx_pkt ⟨gs, gbs, rd, gps, crb, ci⟩).outcome = .ok →
      countIf isClearIrqs (show_rx_pkt ⟨gs, gbs, rd, gps, crb, ci⟩).trace = 1 ∧
      lastEv (show_rx_pkt ⟨gs, gbs, rd, gps, crb, ci⟩).trace
        = some (.cmd .clearIrqs)) ∧
    (∀ (rxE : Bool) (v : Nat) (gbs : Except Nat BufferStatus) (rd : Except Nat Unit)
        (gps : Except Nat PktStatus) (crb ci : Except Nat Unit),
      (show_rx_pkt ⟨.ok ⟨false, rxE, false, v⟩, gbs, rd, gps, crb, ci⟩).trace
        = [.cmd .getStatus, .cmd .clearIrqs]) := by
  constructor
  · intro gs gbs rd gps crb ci h
    rcases gs with e1 | intr
    · exact absurd h (by simp [show_rx_pkt])
    · obtain ⟨rxD, rxE, txD, v⟩ := intr
      cases rxD <;> cases rxE <;> cases txD <;>
        rcases gbs with e2 | bs <;> rcases rd with e3 | u3 <;>
        rcases gps with e4 | p4 <;> rcases crb with e5 | u5 <;>
        rcases ci with e6 | u6 <;>
        first
          | exact ⟨rfl, rfl⟩
          | exact absurd h (by simp [show_rx_pkt])
  · intro rxE v gbs rd gps crb ci
    rcases ci with e6 | u6 <;> rfl

/-- C7 witness: a spurious interrupt (no flag set) with all commands
succeeding yields exactly one clear-all-interrupts, last in the trace. -/
theorem C7_witness :
    countIf isClearIrqs (show_rx_pkt ⟨.ok ⟨false, false, false, 7⟩, .ok ⟨0, 0⟩,
      .ok (), .ok ⟨0, 0⟩, .ok (), .ok ()⟩).trace = 1 ∧
    lastEv (show_rx_pkt ⟨.ok ⟨false, false, false, 7⟩, .ok ⟨0, 0⟩,
      .ok (), .ok ⟨0, 0⟩, .ok (), .ok ()⟩).trace = some (.cmd .clearIrqs) := by
  exact C7_thm.1 (.ok ⟨false, false, false, 7⟩) (.ok ⟨0, 0⟩) (.ok ())
    (.ok ⟨0, 0⟩) (.ok ()) (.ok ()) rfl

/-- C8: a Short press in role Receive runs the statistics handler, whose
trace is the statistics query, then the log of the four counters, then the
clear command, in this order; no transmit command and no role-change command
is issued, and the role stays Receive. -/
theorem C8_thm (stats : RxStats) (se : SendEnv) (swe : SwitchEnv)
    (k : Nat) (buf : List Nat) :
    (handle_press .Short .Rx ⟨⟨.ok stats, .ok ()⟩, se, swe⟩ k buf).trace
      = [.cmd .getRxStats,
         .logStats stats.pkt_rx stats.crc_error stats.header_error stats.false_sync,
         .cmd .clearRxStats] ∧
    (handle_press .Short .Rx ⟨⟨.ok stats, .ok ()⟩, se, swe⟩ k buf).trace.filter isTxCmd
      = [] ∧
    (handle_press .Short .Rx ⟨⟨.ok stats, .ok ()⟩, se, swe⟩ k buf).trace.filter
      isRoleChangeCmd = [] ∧
    (handle_press .Short .Rx ⟨⟨.ok stats, .ok ()⟩, se, swe⟩ k buf).role = .Rx := by
  exact ⟨rfl, rfl, rfl, rfl⟩

/-- C9: a Long press in role Transmit toggles the role to Receive and the
apply sequence is the frequency-synthesis idle command first, then the
continuous-receive start with the maximal no-timeout sentinel 0xFFFFFFFF,
then the indicator updates (transmit indicator off, receive indicator
blinking); the resulting in-memory role reads as Receive. -/
theorem C9_thm (ste : StatsEnv) (se : SendEnv) (k : Nat) (buf : List Nat) :
    (handle_press .Long .Tx ⟨ste, se, ⟨.ok (), .ok ()⟩⟩ k buf).role = .Rx ∧
    BoardRole.is_rx (handle_press .Long .Tx ⟨ste, se, ⟨.ok (), .ok ()⟩⟩ k buf).role
      = true ∧
    (handle_press .Long .Tx ⟨ste, se, ⟨.ok (), .ok ()⟩⟩ k buf).trace
      = [.cmd .setChipModeFs, .cmd (.setRx 4294967295 true),
         .led .red .Off, .led .green .BlinkSlow, .info] ∧
    (handle_press .Long .Tx ⟨ste, se, ⟨.ok (), .ok ()⟩⟩ k buf).outcome = .ok := by
  exact ⟨rfl, rfl, rfl, rfl⟩

end LoraTxrx
